import Mathlib

/-!
Verification of the `Master-Repo` HTTP servers.

The repository contains two programs:
* `src/unnamed/part_001` — a bare Node `http` server answering every request
  with status 200 and body "Hello, World!\n";
* `src/server.js` — an Express application wrapping the same route with a
  middleware chain (helmet security headers, CORS, rate limiting, input
  validation), a `/health` route, a 404 handler, a TLS certificate loader,
  a second (encrypted) listener, and signal/error handlers.

The middleware libraries themselves (helmet, cors, express-rate-limit,
express-validator) are not part of the repository; where their internal
behaviour decides a claim it is modelled from the specification, and the
corresponding definitions carry a doc comment saying so.  Everything that
is in `src/server.js` — configuration constants, the registration order,
the route handlers, `handleValidationErrors`, `loadTLSCertificates`, the
`listen`/`error` callbacks and the SIGTERM/SIGINT handlers — is embedded
directly from the source.
-/

/-- HTTP methods appearing in the configuration (`corsOptions.methods`)
plus HEAD and PATCH, so that "every HTTP method" is quantifiable. -/
inductive Method
  | GET | POST | PUT | DELETE | OPTIONS | HEAD | PATCH
  deriving DecidableEq, Repr

/-- Which listener the request arrived on: the plain HTTP listener
(port 3000) or the encrypted HTTPS listener (port 3443). -/
inductive Transport
  | plain | encrypted
  deriving DecidableEq, Repr

/-- JSON values, for the structured bodies built with `res.json({...})`. -/
inductive Json
  | str (s : String)
  | num (n : Nat)
  | arr (elems : List Json)
  | obj (fields : List (String × Json))

/-- Look a key up in a JSON object (first binding wins). -/
def Json.field : Json → String → Option Json
  | Json.obj fs, k => List.lookup k fs
  | _, _ => none

/-- An HTTP request as the pipeline sees it: method, target path
(`req.originalUrl`), optional `Origin` header, optional parsed JSON body,
the client address used as the rate-limit key, the transport it arrived
on, and its arrival time in milliseconds. -/
structure Request where
  method : Method
  path : String
  origin : Option String
  reqBody : Option Json
  clientKey : String
  transport : Transport
  time : Nat

/-- A response body: plain text (from `res.send`), JSON (from `res.json`),
or empty (preflight answers). -/
inductive Body
  | text (s : String)
  | json (j : Json)
  | empty

/-- An HTTP response: status, headers in emission order, body. -/
structure Response where
  status : Nat
  headers : List (String × String)
  body : Body

/-! ## Configuration constants, from `src/server.js` lines 14-46 -/

/-- `const HTTP_PORT = 3000` -/
def HTTP_PORT : Nat := 3000

/-- `const HTTPS_PORT = 3443` -/
def HTTPS_PORT : Nat := 3443

/-- `windowMs: 15 * 60 * 1000` from the `rateLimit` configuration. -/
def windowMs : Nat := 15 * 60 * 1000

/-- `max: 100` from the `rateLimit` configuration. -/
def maxRequests : Nat := 100

/-- The structured body sent by the `rateLimit` handler
(`res.status(429).json({error, retryAfter})`, lines 31-36). -/
def rateLimitMessage : Json :=
  Json.obj
    [("error", Json.str "Too many requests from this IP, please try again later."),
     ("retryAfter", Json.str "15 minutes")]

/-- `corsOptions.origin` — the configured allow-list (line 41). -/
def allowedOrigins : List String :=
  ["http://localhost:3000", "https://localhost:3443"]

/-- `corsOptions.optionsSuccessStatus: 200` (line 45). -/
def optionsSuccessStatus : Nat := 200

/-- `corsOptions.methods` rendered as the `Access-Control-Allow-Methods`
preflight header value (line 42). -/
def corsMethodsValue : String := "GET,POST,PUT,DELETE,OPTIONS"

/-- `corsOptions.allowedHeaders` rendered as the
`Access-Control-Allow-Headers` preflight header value (line 43). -/
def corsAllowedHeadersValue : String :=
  "Content-Type,Authorization,X-Requested-With"

/-! ## Security header stage (helmet) -/

/-- The fixed header names of the security header stage, as the spec lists
them (content-security-policy, frame-options, content-type-options,
DNS-prefetch-control, cross-domain-policy, referrer-policy). -/
def coreSecurityHeaderNames : List String :=
  ["Content-Security-Policy", "X-Frame-Options", "X-Content-Type-Options",
   "X-DNS-Prefetch-Control", "X-Permitted-Cross-Domain-Policies",
   "Referrer-Policy"]

/-- The `contentSecurityPolicy.directives` of the helmet configuration
(`src/server.js` lines 72-79) rendered as a header value. -/
def cspValue : String :=
  "default-src \x27self\x27; style-src \x27self\x27 \x27unsafe-inline\x27; script-src \x27self\x27; img-src \x27self\x27 data: https:"

/-- Modelled from the spec: the helmet package is not in `src/`; the spec
says the security header stage "unconditionally attaches a fixed set of
response headers (content-security-policy, frame-options,
content-type-options, DNS-prefetch-control, cross-domain-policy,
referrer-policy, and — only on the encrypted transport —
strict-transport-security)".  The CSP directives and the HSTS
`maxAge`/`includeSubDomains` values come from the `src/server.js`
configuration (lines 71-86). -/
def securityHeaders (t : Transport) : List (String × String) :=
  [("Content-Security-Policy", cspValue),
   ("X-Frame-Options", "SAMEORIGIN"),
   ("X-Content-Type-Options", "nosniff"),
   ("X-DNS-Prefetch-Control", "off"),
   ("X-Permitted-Cross-Domain-Policies", "none"),
   ("Referrer-Policy", "no-referrer")]
  ++ (if t = Transport.encrypted then
        [("Strict-Transport-Security", "max-age=31536000; includeSubDomains")]
      else [])

/-! ## CORS stage -/

/-- Whether a request's `Origin` header is acceptable: absent, or present
and in the configured allow-list. -/
def allowsOrigin (req : Request) : Bool :=
  match req.origin with
  | none => true
  | some o => allowedOrigins.contains o

/-- Modelled from the spec: the cors package is not in `src/`; the spec
says a request whose `Origin` is "present and not in the configured
allow-list" fails "with status reflecting a CORS denial" (a structured
4xx per the error taxonomy).  403 is the concrete denial status of this
model. -/
def corsDenialStatus : Nat := 403

/-- Modelled from the spec: the structured body of a CORS denial. -/
def corsDenialResponse : Response :=
  { status := corsDenialStatus,
    headers := [],
    body := Body.json (Json.obj [("error", Json.str "CORS origin denied")]) }

/-- Modelled from the spec: preflight (`OPTIONS`) requests are answered
"immediately with allowed methods/headers and status 200" — the 200 is
`optionsSuccessStatus` from the `src/server.js` configuration. -/
def preflightResponse (origin : Option String) : Response :=
  { status := optionsSuccessStatus,
    headers :=
      (match origin with
       | some o => [("Access-Control-Allow-Origin", o)]
       | none => [])
      ++ [("Access-Control-Allow-Methods", corsMethodsValue),
          ("Access-Control-Allow-Headers", corsAllowedHeadersValue)],
    body := Body.empty }

/-- The header the CORS stage contributes when it lets a request through
with an allowed `Origin`. -/
def corsNextHeaders (req : Request) : List (String × String) :=
  match req.origin with
  | some o => if allowedOrigins.contains o then [("Access-Control-Allow-Origin", o)] else []
  | none => []

/-! ## Rate limit stage -/

/-- Per-client-key window record: request count and window start time. -/
structure WindowState where
  count : Nat
  windowStart : Nat
  deriving DecidableEq, Repr

/-- The process-wide rate-limit store, keyed by client address. -/
abbrev RLState := List (String × WindowState)

/-- Look a client key up in the rate-limit store. -/
def RLState.get : List (String × WindowState) → String → Option WindowState
  | [], _ => none
  | (k, w) :: rest, key => if k = key then some w else RLState.get rest key

/-- Store a client key's window record. -/
def RLState.set : List (String × WindowState) → String → WindowState → List (String × WindowState)
  | [], key, w => [(key, w)]
  | (k, w0) :: rest, key, w =>
      if k = key then (key, w) :: rest else (k, w0) :: RLState.set rest key w

/-- Modelled from the spec: express-rate-limit is not in `src/`; the spec
says the limiter keeps a fixed window that "resets entirely once its
start time ages past the duration", counting each arriving request.
`windowMs` comes from the `src/server.js` configuration. -/
def bumpWindow (cur : Option WindowState) (now : Nat) : WindowState :=
  match cur with
  | none => { count := 1, windowStart := now }
  | some w0 =>
      if now ≥ w0.windowStart + windowMs then { count := 1, windowStart := now }
      else { count := w0.count + 1, windowStart := w0.windowStart }

/-- Modelled from the spec: the remaining-quota and reset-time headers the
limiter "emits on every response regardless of outcome"
(`standardHeaders: true` in the `src/server.js` configuration). -/
def rateLimitHeaders (w : WindowState) (now : Nat) : List (String × String) :=
  [("RateLimit-Limit", toString maxRequests),
   ("RateLimit-Remaining", toString (maxRequests - w.count)),
   ("RateLimit-Reset", toString ((w.windowStart + windowMs - now) / 1000))]

/-! ## Input validation stage -/

/-- One accumulated validation failure (`{field, message}`). -/
structure ValidationError where
  field : String
  msg : String
  deriving DecidableEq, Repr

/-- A validating constraint of a declared rule: a check on a string field
value plus a failure message. -/
structure Constraint where
  check : String → Bool
  msg : String

/-- One declared validation chain: whether it is `.optional()`, its
sanitizer, and its validating constraints. -/
structure ValidationRule where
  isOptional : Bool
  sanitizer : String → String
  constraints : List Constraint

/-- Modelled from the spec: HTML-escaping of the validator's `.escape()`
sanitizer ("each string field is trimmed and HTML-escaped in place"). -/
def escapeHtml (s : String) : String :=
  ((((s.replace "&" "&amp;").replace "<" "&lt;").replace ">" "&gt;").replace
      "\x22" "&quot;").replace "\x27" "&#x27;"

/-- `const validateInput = [ body('*').optional().trim().escape() ]`
(`src/server.js` lines 49-52): a single chain targeting every body field,
optional, sanitizing by trim-then-escape, with **no** validating
constraint. -/
def validateInput : List ValidationRule :=
  [{ isOptional := true,
     sanitizer := fun s => escapeHtml s.trim,
     constraints := [] }]

/-- The string fields of the parsed JSON body (the fields `body('*')`
ranges over); a missing or non-object body has none. -/
def bodyStringFields (req : Request) : List (String × String) :=
  match req.reqBody with
  | some (Json.obj fs) =>
      fs.filterMap (fun f =>
        match f.2 with
        | Json.str s => some (f.1, s)
        | _ => none)
  | _ => []

/-- Modelled from the spec: express-validator is not in `src/`; the spec
says errors accumulate from "declared per-field constraints" only — a
constraint-free sanitizer chain records none. -/
def collectRuleErrors (rule : ValidationRule) (req : Request) : List ValidationError :=
  rule.constraints.flatMap (fun c =>
    (bodyStringFields req).filterMap (fun f =>
      if c.check f.2 then none else some { field := f.1, msg := c.msg }))

/-- `validationResult(req)` over the declared `validateInput` chains. -/
def validationResult (req : Request) : List ValidationError :=
  validateInput.flatMap (fun rule => collectRuleErrors rule req)

/-- Apply the declared sanitizers to every string body field in place
(`.trim().escape()` of `validateInput`). -/
def sanitizeBody (req : Request) : Request :=
  { req with
    reqBody := req.reqBody.map (fun b =>
      match b with
      | Json.obj fs =>
          Json.obj (fs.map (fun f =>
            match f.2 with
            | Json.str s =>
                (f.1, Json.str (validateInput.foldl (fun v rule => rule.sanitizer v) s))
            | v => (f.1, v)))
      | v => v) }

/-- The status-400 response of `handleValidationErrors`
(`src/server.js` lines 55-67). -/
def validationFailureResponse (errs : List ValidationError) : Response :=
  { status := 400,
    headers := [],
    body := Body.json (Json.obj
      [("error", Json.str "Invalid input provided"),
       ("details", Json.arr (errs.map (fun e =>
          Json.obj [("field", Json.str e.field), ("message", Json.str e.msg)])))]) }

/-! ## Routes and Response Generator (`src/server.js` lines 102-138) -/

/-- Whether an Express `app.get` route matches a request's method: GET
matches directly, HEAD falls back to the GET handler. -/
def matchesGet (m : Method) : Prop := m = Method.GET ∨ m = Method.HEAD

instance (m : Method) : Decidable (matchesGet m) := by
  unfold matchesGet
  infer_instance

/-- `app.get('/', ...)`: `res.status(200).send('Hello, World!\n')`
(lines 117-120). -/
def helloResponse : Response :=
  { status := 200, headers := [], body := Body.text "Hello, World!\n" }

/-- `app.get('/health', ...)` (lines 102-115).  The `timestamp` field is
`new Date().toISOString()`; the model records the clock value itself
rather than its ISO rendering. -/
def healthResponse (now : Nat) : Response :=
  { status := 200,
    headers := [],
    body := Body.json (Json.obj
      [("status", Json.str "OK"),
       ("timestamp", Json.num now),
       ("version", Json.str "1.0.0"),
       ("security", Json.obj
         [("https", Json.str "enabled"),
          ("rateLimit", Json.str "active"),
          ("headers", Json.str "protected"),
          ("validation", Json.str "active")])]) }

/-- The 404 handler `app.use('*', ...)` (lines 122-129): status 404 with a
structured body whose `path` field is `req.originalUrl`. -/
def notFoundResponse (p : String) : Response :=
  { status := 404,
    headers := [],
    body := Body.json (Json.obj
      [("error", Json.str "Not Found"),
       ("message", Json.str "The requested resource was not found on this server."),
       ("path", Json.str p)]) }

/-- Route dispatch in registration order: `GET /health`, then `GET /`,
then the catch-all 404 handler. -/
def routeDispatch (req : Request) : Response :=
  if matchesGet req.method ∧ req.path = "/health" then healthResponse req.time
  else if matchesGet req.method ∧ req.path = "/" then helloResponse
  else notFoundResponse req.path

/-- The global error handler (`src/server.js` lines 131-138); in the model
it is the fallback for an empty pipeline and is never reached. -/
def errorFallback : Response :=
  { status := 500,
    headers := [],
    body := Body.json (Json.obj
      [("error", Json.str "Internal Server Error"),
       ("message", Json.str "An unexpected error occurred. Please try again later.")]) }

/-! ## The middleware pipeline -/

/-- What one stage does with a request: pass it on (possibly rewritten,
contributing response headers) or terminate the chain with a response. -/
inductive StageResult
  | next (req : Request) (headers : List (String × String))
  | halt (resp : Response)

/-- A pipeline stage: reads the request and the rate-limit store, returns
the updated store and its verdict. -/
abbrev Stage := Request → RLState → RLState × StageResult

/-- Helmet: contributes the security headers, never terminates. -/
def helmetStage : Stage := fun req st =>
  (st, StageResult.next req (securityHeaders req.transport))

/-- The CORS stage: deny a disallowed `Origin`, answer preflight
immediately, otherwise pass through (adding the allow-origin header for
an allowed `Origin`). -/
def corsStage : Stage := fun req st =>
  match req.origin with
  | some o =>
      if allowedOrigins.contains o then
        if req.method = Method.OPTIONS then
          (st, StageResult.halt (preflightResponse (some o)))
        else
          (st, StageResult.next req [("Access-Control-Allow-Origin", o)])
      else
        (st, StageResult.halt corsDenialResponse)
  | none =>
      if req.method = Method.OPTIONS then
        (st, StageResult.halt (preflightResponse none))
      else
        (st, StageResult.next req [])

/-- The rate-limit stage: count the request in the client's window, then
either pass (contributing the quota headers) or terminate with the 429
response of the configured handler. -/
def rateLimitStage : Stage := fun req st =>
  let w := bumpWindow (RLState.get st req.clientKey) req.time
  let st' := RLState.set st req.clientKey w
  if w.count > maxRequests then
    (st', StageResult.halt
      { status := 429,
        headers := rateLimitHeaders w req.time,
        body := Body.json rateLimitMessage })
  else
    (st', StageResult.next req (rateLimitHeaders w req.time))

/-- The input-validation stage: run the sanitizers
(`app.use(validateInput)`), then `handleValidationErrors` — pass on an
empty `validationResult`, otherwise terminate with the 400 response. -/
def validationStage : Stage := fun req st =>
  let req' := sanitizeBody req
  match validationResult req' with
  | [] => (st, StageResult.next req' [])
  | e :: es => (st, StageResult.halt (validationFailureResponse (e :: es)))

/-- Route dispatch as the terminal stage: always halts with the Response
Generator's answer. -/
def routeStage : Stage := fun req st =>
  (st, StageResult.halt (routeDispatch req))

/-- Run the stages in order, accumulating contributed response headers;
a halting stage's response keeps the headers already attached. -/
def runPipeline : List Stage → Request → RLState → List (String × String) → RLState × Option Response
  | [], _, st, _ => (st, none)
  | s :: rest, req, st, acc =>
      match s req st with
      | (st', StageResult.next req' hs) => runPipeline rest req' st' (acc ++ hs)
      | (st', StageResult.halt r) =>
          (st', some { r with headers := acc ++ r.headers })

/-- The registration order of `src/server.js` lines 71-129: helmet, cors,
rate limit, validation, routes.  (The body-parsing registrations between
the limiter and the validators are modelled by the already-parsed
`reqBody` field.) -/
def expressStages : List Stage :=
  [helmetStage, corsStage, rateLimitStage, validationStage, routeStage]

/-- The Express application: run the pipeline; the global error handler's
500 is the (unreachable) fallback for a pipeline that produced nothing. -/
def expressApp (req : Request) (st : RLState) : RLState × Response :=
  match runPipeline expressStages req st [] with
  | (st', some r) => (st', r)
  | (st', none) => (st', errorFallback)

/-- The bare server of `src/unnamed/part_001` (lines 16-20): every request
gets status 200, `Content-Type: text/plain`, body "Hello, World!\n". -/
def bareServer (_req : Request) : Response :=
  { status := 200,
    headers := [("Content-Type", "text/plain")],
    body := Body.text "Hello, World!\n" }

/-! ## Derived notions used by the theorems -/

/-- The headers every surviving request has accumulated by the time a
response is produced: security headers, the CORS pass-through header, the
rate-limit quota headers. -/
def passHeaders (req : Request) (w : WindowState) : List (String × String) :=
  securityHeaders req.transport ++ corsNextHeaders req ++ rateLimitHeaders w req.time

/-- The client's window is not yet exhausted: counting this request keeps
it within the configured maximum. -/
def underLimit (st : RLState) (req : Request) : Prop :=
  (bumpWindow (RLState.get st req.clientKey) req.time).count ≤ maxRequests

instance (st : RLState) (req : Request) : Decidable (underLimit st req) := by
  unfold underLimit
  infer_instance

/-- Look a field up in a response body (when it is a JSON object). -/
def bodyField (b : Body) (k : String) : Option Json :=
  match b with
  | Body.json j => j.field k
  | _ => none

/-- A disallowed `Origin` terminates the pipeline at the CORS stage: the
store is untouched and the response is the CORS denial carrying the
already-attached security headers. -/
theorem expressApp_deny (req : Request) (st : RLState) (o : String)
    (hO : req.origin = some o) (hA : allowedOrigins.contains o = false) :
    expressApp req st =
      (st, { status := corsDenialStatus,
             headers := securityHeaders req.transport,
             body := corsDenialResponse.body }) := by
  have hA2 : o ∉ allowedOrigins := by simpa using hA
  simp [expressApp, expressStages, runPipeline, helmetStage, corsStage, hO, hA2,
    corsDenialResponse]

/-- An `OPTIONS` request with an acceptable `Origin` is answered by the
preflight response, bypassing all later stages. -/
theorem expressApp_preflight (req : Request)
    (st : RLState) (hM : req.method = Method.OPTIONS)
    (hO : allowsOrigin req = true) :
    expressApp req st =
      (st, { status := optionsSuccessStatus,
             headers := securityHeaders req.transport ++ (preflightResponse req.origin).headers,
             body := Body.empty }) := by
  cases hOr : req.origin with
  | none =>
      simp [expressApp, expressStages, runPipeline, helmetStage, corsStage, hOr, hM,
        preflightResponse]
  | some o =>
      have hc : o ∈ allowedOrigins := by
        simpa [allowsOrigin, hOr] using hO
      simp [expressApp, expressStages, runPipeline, helmetStage, corsStage, hOr, hM, hc,
        preflightResponse]

/-- A non-preflight request with an acceptable `Origin` passes CORS,
is counted by the limiter, and is then either cut off with the 429
response or answered by route dispatch on the sanitized request. -/
theorem expressApp_pass (req : Request) (st : RLState)
    (hO : allowsOrigin req = true) (hM : req.method ≠ Method.OPTIONS) :
    expressApp req st =
      (RLState.set st req.clientKey (bumpWindow (RLState.get st req.clientKey) req.time),
       if (bumpWindow (RLState.get st req.clientKey) req.time).count > maxRequests then
         { status := 429,
           headers := passHeaders req (bumpWindow (RLState.get st req.clientKey) req.time),
           body := Body.json rateLimitMessage }
       else
         { status := (routeDispatch (sanitizeBody req)).status,
           headers := passHeaders req (bumpWindow (RLState.get st req.clientKey) req.time)
             ++ (routeDispatch (sanitizeBody req)).headers,
           body := (routeDispatch (sanitizeBody req)).body }) := by
  have hB : validationResult (sanitizeBody req) = [] := by
    simp [validationResult, validateInput, collectRuleErrors]
  cases hOr : req.origin with
  | none =>
      by_cases h : (bumpWindow (RLState.get st req.clientKey) req.time).count > maxRequests
      all_goals
        simp [expressApp, expressStages, runPipeline, helmetStage, corsStage,
          rateLimitStage, validationStage, routeStage, hOr, hM, hB, h,
          passHeaders, corsNextHeaders, List.append_assoc]
  | some o =>
      have hc : o ∈ allowedOrigins := by
        simpa [allowsOrigin, hOr] using hO
      by_cases h : (bumpWindow (RLState.get st req.clientKey) req.time).count > maxRequests
      all_goals
        simp [expressApp, expressStages, runPipeline, helmetStage, corsStage,
          rateLimitStage, validationStage, routeStage, hOr, hM, hB, h, hc,
          passHeaders, corsNextHeaders, List.append_assoc]

/-- Sanitizing the body leaves the method untouched. -/
theorem sanitizeBody_method (req : Request) : (sanitizeBody req).method = req.method := rfl

/-- Sanitizing the body leaves the path untouched. -/
theorem sanitizeBody_path (req : Request) : (sanitizeBody req).path = req.path := rfl

/-- Every route handler of `src/server.js` sets no headers of its own. -/
theorem routeDispatch_headers (req : Request) : (routeDispatch req).headers = [] := by
  unfold routeDispatch
  split
  · rfl
  split
  · rfl
  · rfl

/-- Every route handler answers 200 or 404. -/
theorem routeDispatch_status (req : Request) :
    (routeDispatch req).status = 200 ∨ (routeDispatch req).status = 404 := by
  unfold routeDispatch
  split
  · exact Or.inl rfl
  split
  · exact Or.inl rfl
  · exact Or.inr rfl

/-! ## Claim C1 -/

/-- A concrete POST request to the root: no body, no `Origin` header. -/
def postRootReq : Request :=
  { method := Method.POST, path := "/", origin := none, reqBody := none,
    clientKey := "client", transport := Transport.plain, time := 0 }

/-- A concrete GET request to the root: no body, no `Origin` header. -/
def getRootReq : Request :=
  { method := Method.GET, path := "/", origin := none, reqBody := none,
    clientKey := "client", transport := Transport.plain, time := 0 }

/-- C1 counterexample: a POST to `/` with no body and no disallowed
`Origin`, in a fresh window, is answered by the Express server with 404,
not 200 — `app.get('/')` matches only GET (and HEAD). -/
theorem root_post_gets_404 :
    (expressApp postRootReq []).2.status = 404 ∧
    (expressApp postRootReq []).2.status ≠ 200 := by
  constructor
  · rfl
  · decide

/-- C1 (amended): for requests to `/` with no body and an acceptable
`Origin`, within the rate limit: the bare server answers 200 with body
"Hello, World!\n" for every method; the Express server does so exactly
for GET and HEAD, and answers 404 for any other non-OPTIONS method. -/
theorem root_route_by_method (req : Request) (st : RLState)
    (hp : req.path = "/") (hb : req.reqBody = none)
    (hO : allowsOrigin req = true) (hL : underLimit st req) :
    bareServer req =
      { status := 200, headers := [("Content-Type", "text/plain")],
        body := Body.text "Hello, World!\n" } ∧
    (matchesGet req.method →
      (expressApp req st).2.status = 200 ∧
      (expressApp req st).2.body = Body.text "Hello, World!\n") ∧
    (¬ matchesGet req.method → req.method ≠ Method.OPTIONS →
      (expressApp req st).2.status = 404) := by
  refine ⟨rfl, ?_, ?_⟩
  · intro hg
    have hM : req.method ≠ Method.OPTIONS := by
      rcases hg with h | h <;> simp [h]
    have hroute : routeDispatch (sanitizeBody req) = helloResponse := by
      have hm : matchesGet (sanitizeBody req).method := by
        rw [sanitizeBody_method]; exact hg
      simp [routeDispatch, sanitizeBody_path, hp, hm, helloResponse]
    rw [expressApp_pass req st hO hM]
    simp [if_neg (Nat.not_lt.mpr hL), hroute, helloResponse]
  · intro hg hM
    have hroute : routeDispatch (sanitizeBody req) = notFoundResponse req.path := by
      have hm : ¬ matchesGet (sanitizeBody req).method := by
        rw [sanitizeBody_method]; exact hg
      simp [routeDispatch, hm, sanitizeBody_path]
    rw [expressApp_pass req st hO hM]
    simp [if_neg (Nat.not_lt.mpr hL), hroute, notFoundResponse]

/-- C1 witness: the GET instance of the amended statement at a concrete
request and a fresh store. -/
theorem root_route_by_method_w :
    (expressApp getRootReq []).2.status = 200 ∧
    (expressApp getRootReq []).2.body = Body.text "Hello, World!\n" :=
  (root_route_by_method getRootReq [] rfl rfl rfl (by decide)).2.1 (Or.inl rfl)

/-! ## Claim C3 -/

/-- C3: a request whose `Origin` is not in the allow-list terminates at
the CORS stage: the denial response is produced (with the security
headers already attached), the rate-limit store is untouched, and route
dispatch is never reached (the body is the denial body, not a route
body). -/
theorem cors_disallowed_origin_rejected (req : Request) (st : RLState) (o : String)
    (hO : req.origin = some o) (hA : allowedOrigins.contains o = false) :
    expressApp req st =
      (st, { status := corsDenialStatus,
             headers := securityHeaders req.transport,
             body := corsDenialResponse.body }) ∧
    (expressApp req st).1 = st ∧
    (expressApp req st).2.body ≠ Body.text "Hello, World!\n" := by
  have h := expressApp_deny req st o hO hA
  refine ⟨h, by rw [h], ?_⟩
  rw [h]
  intro hcontra
  simp [corsDenialResponse] at hcontra

/-- A concrete request with a disallowed `Origin`. -/
def evilOriginReq : Request :=
  { method := Method.GET, path := "/", origin := some "http://evil.example",
    reqBody := none, clientKey := "client", transport := Transport.plain, time := 0 }

/-- C3 witness: the disallowed-`Origin` theorem at a concrete request and
a non-empty store, whose counter stays untouched. -/
theorem cors_disallowed_origin_rejected_w :
    expressApp evilOriginReq [("client", { count := 5, windowStart := 0 })] =
      ([("client", { count := 5, windowStart := 0 })],
       { status := corsDenialStatus,
         headers := securityHeaders Transport.plain,
         body := corsDenialResponse.body }) :=
  (cors_disallowed_origin_rejected evilOriginReq
    [("client", { count := 5, windowStart := 0 })] "http://evil.example" rfl rfl).1

/-! ## Claim C7 -/

/-- C7: a request whose path matches no defined route — one that survives
the CORS and rate-limit stages — is answered with 404 and a structured
body whose `path` field is exactly the requested path. -/
theorem unmatched_path_404 (req : Request) (st : RLState)
    (hO : allowsOrigin req = true) (hM : req.method ≠ Method.OPTIONS)
    (hL : underLimit st req)
    (h1 : req.path ≠ "/") (h2 : req.path ≠ "/health") :
    (expressApp req st).2.status = 404 ∧
    bodyField (expressApp req st).2.body "path" = some (Json.str req.path) := by
  have hroute : routeDispatch (sanitizeBody req) = notFoundResponse req.path := by
    simp [routeDispatch, sanitizeBody_path, h1, h2]
  rw [expressApp_pass req st hO hM]
  simp only [if_neg (Nat.not_lt.mpr hL), hroute]
  exact ⟨rfl, rfl⟩

/-- A concrete GET request to an undefined path. -/
def missingPathReq : Request :=
  { method := Method.GET, path := "/no-such-resource", origin := none,
    reqBody := none, clientKey := "client", transport := Transport.plain, time := 0 }

/-- C7 witness: the unmatched-path theorem at a concrete request. -/
theorem unmatched_path_404_w :
    (expressApp missingPathReq []).2.status = 404 ∧
    bodyField (expressApp missingPathReq []).2.body "path" =
      some (Json.str "/no-such-resource") :=
  unmatched_path_404 missingPathReq [] rfl (by decide) (by decide)
    (by decide) (by decide)

/-! ## Claim C5 -/

/-- The CORS pass-through header is never the HSTS header. -/
theorem sts_not_in_corsNext (req : Request) :
    "Strict-Transport-Security" ∉ (corsNextHeaders req).map Prod.fst := by
  unfold corsNextHeaders
  cases req.origin with
  | none => simp
  | some o =>
      by_cases hc : allowedOrigins.contains o = true <;> simp [hc]

/-- The quota headers are never the HSTS header. -/
theorem sts_not_in_rl (w : WindowState) (now : Nat) :
    "Strict-Transport-Security" ∉ (rateLimitHeaders w now).map Prod.fst := by
  simp [rateLimitHeaders]

/-- Every response of the Express pipeline carries the security headers
first, followed only by headers that are not `Strict-Transport-Security`. -/
theorem expressApp_headers_shape (req : Request) (st : RLState) :
    ∃ rest, (expressApp req st).2.headers = securityHeaders req.transport ++ rest ∧
      "Strict-Transport-Security" ∉ rest.map Prod.fst := by
  by_cases hA : allowsOrigin req = true
  · by_cases hM : req.method = Method.OPTIONS
    · refine ⟨(preflightResponse req.origin).headers, ?_, ?_⟩
      · rw [expressApp_preflight req st hM hA]
      · cases req.origin with
        | none => simp [preflightResponse]
        | some o => simp [preflightResponse]
    · by_cases h : (bumpWindow (RLState.get st req.clientKey) req.time).count > maxRequests
      · refine ⟨corsNextHeaders req
            ++ rateLimitHeaders (bumpWindow (RLState.get st req.clientKey) req.time) req.time,
            ?_, ?_⟩
        · rw [expressApp_pass req st hA hM]
          simp [h, passHeaders, List.append_assoc]
        · simp only [List.map_append, List.mem_append]
          rintro (hs | hs)
          · exact sts_not_in_corsNext req hs
          · exact sts_not_in_rl _ _ hs
      · refine ⟨corsNextHeaders req
            ++ rateLimitHeaders (bumpWindow (RLState.get st req.clientKey) req.time) req.time,
            ?_, ?_⟩
        · rw [expressApp_pass req st hA hM]
          simp [h, passHeaders, routeDispatch_headers, List.append_assoc]
        · simp only [List.map_append, List.mem_append]
          rintro (hs | hs)
          · exact sts_not_in_corsNext req hs
          · exact sts_not_in_rl _ _ hs
  · cases hOr : req.origin with
    | none => exact absurd (by simp [allowsOrigin, hOr]) hA
    | some o =>
        have hc : allowedOrigins.contains o = false := by
          cases hcc : allowedOrigins.contains o with
          | false => rfl
          | true =>
              have hmem : o ∈ allowedOrigins := by simpa using hcc
              exact absurd (by simp [allowsOrigin, hOr, hmem]) hA
        refine ⟨[], ?_, by simp⟩
        rw [expressApp_deny req st o hOr hc]
        simp

/-- C5: on every response of the Express pipeline, whatever its outcome,
all six fixed security headers are present, and the
`Strict-Transport-Security` header is present exactly when the request
came in on the encrypted transport. -/
theorem security_headers_per_transport (req : Request) (st : RLState) :
    (∀ n ∈ coreSecurityHeaderNames, n ∈ (expressApp req st).2.headers.map Prod.fst) ∧
    ("Strict-Transport-Security" ∈ (expressApp req st).2.headers.map Prod.fst ↔
      req.transport = Transport.encrypted) := by
  obtain ⟨rest, hEq, hSts⟩ := expressApp_headers_shape req st
  rw [hEq]
  constructor
  · intro n hn
    rw [List.map_append, List.mem_append]
    left
    cases ht : req.transport <;> fin_cases hn <;> simp [securityHeaders]
  · rw [List.map_append, List.mem_append]
    constructor
    · rintro (h | h)
      · cases ht : req.transport
        · rw [ht] at h
          exact absurd h (by simp [securityHeaders])
        · rfl
      · exact absurd h hSts
    · intro ht
      rw [ht]
      simp [securityHeaders]

/-- A concrete plain-transport request. -/
def plainReq : Request :=
  { method := Method.GET, path := "/", origin := none, reqBody := none,
    clientKey := "client", transport := Transport.plain, time := 0 }

/-- C5 witness: at a concrete plain-transport request, a fixed header is
present and the HSTS header is absent. -/
theorem security_headers_per_transport_w :
    "X-Frame-Options" ∈ (expressApp plainReq []).2.headers.map Prod.fst ∧
    "Strict-Transport-Security" ∉ (expressApp plainReq []).2.headers.map Prod.fst :=
  ⟨(security_headers_per_transport plainReq []).1 "X-Frame-Options" (by decide),
   fun h => nomatch (security_headers_per_transport plainReq []).2.mp h⟩

/-! ## Claim C10 -/

/-- Every pipeline outcome is one of: CORS denial, preflight success,
429, or a route status (200 or 404). -/
theorem expressApp_status_cases (req : Request) (st : RLState) :
    (expressApp req st).2.status = corsDenialStatus ∨
    (expressApp req st).2.status = optionsSuccessStatus ∨
    (expressApp req st).2.status = 429 ∨
    (expressApp req st).2.status = 200 ∨
    (expressApp req st).2.status = 404 := by
  by_cases hA : allowsOrigin req = true
  · by_cases hM : req.method = Method.OPTIONS
    · rw [expressApp_preflight req st hM hA]
      exact Or.inr (Or.inl rfl)
    · by_cases h : (bumpWindow (RLState.get st req.clientKey) req.time).count > maxRequests
      · rw [expressApp_pass req st hA hM]
        simp [h]
      · rw [expressApp_pass req st hA hM]
        simp only [if_neg h]
        rcases routeDispatch_status (sanitizeBody req) with hr | hr <;> simp [hr]
  · cases hOr : req.origin with
    | none => exact absurd (by simp [allowsOrigin, hOr]) hA
    | some o =>
        have hc : allowedOrigins.contains o = false := by
          cases hcc : allowedOrigins.contains o with
          | false => rfl
          | true =>
              have hmem : o ∈ allowedOrigins := by simpa using hcc
              exact absurd (by simp [allowsOrigin, hOr, hmem]) hA
        rw [expressApp_deny req st o hOr hc]
        exact Or.inl rfl

/-- C10: the validation stage's 400 branch is unreachable — the declared
chain is a constraint-free sanitizer, so `validationResult` is always
empty, the stage always passes the request on, and no pipeline outcome
has status 400. -/
theorem validation_400_unreachable (req : Request) (st : RLState) :
    validationResult (sanitizeBody req) = [] ∧
    validationStage req st = (st, StageResult.next (sanitizeBody req) []) ∧
    (expressApp req st).2.status ≠ 400 := by
  refine ⟨rfl, rfl, ?_⟩
  intro h400
  rcases expressApp_status_cases req st with h | h | h | h | h <;>
    rw [h400] at h <;> simp [corsDenialStatus, optionsSuccessStatus] at h

/-! ## Claim C2 -/

/-- A GET request to `/` from client `k` at time `t` (no body, no
`Origin`), on the plain transport. -/
def mkRateReq (k : String) (t : Nat) : Request :=
  { method := Method.GET, path := "/", origin := none, reqBody := none,
    clientKey := k, transport := Transport.plain, time := t }

/-- Feed a sequence of requests through the Express application, threading
the rate-limit store, and collect the responses in order. -/
def runSeq : List Request → RLState → RLState × List Response
  | [], st => (st, [])
  | r :: rest, st =>
      let p := expressApp r st
      let q := runSeq rest p.1
      (q.1, p.2 :: q.2)

/-- The statuses the limiter produces along a same-window sequence whose
client already holds `c` counted requests. -/
def rlStatuses (c : Nat) : List Nat → List Nat
  | [] => []
  | _ :: ts => (if c + 1 ≤ maxRequests then 200 else 429) :: rlStatuses (c + 1) ts

/-- `rlStatuses` by length only. -/
def rlStatusesN (c : Nat) : Nat → List Nat
  | 0 => []
  | n + 1 => (if c + 1 ≤ maxRequests then 200 else 429) :: rlStatusesN (c + 1) n

/-- The produced statuses depend only on the length of the sequence. -/
theorem rlStatuses_eq_len (ts : List Nat) : ∀ c : Nat, rlStatuses c ts = rlStatusesN c ts.length := by
  induction ts with
  | nil => intro c; rfl
  | cons t ts ih => intro c; simp [rlStatuses, rlStatusesN, ih]

/-- The very first request from a fresh client opens a window at its own
arrival time and is answered by the `/` route. -/
theorem expressApp_rate_first (k : String) (t : Nat) :
    expressApp (mkRateReq k t) [] =
      ([(k, { count := 1, windowStart := t })],
       { status := 200,
         headers := passHeaders (mkRateReq k t) { count := 1, windowStart := t },
         body := Body.text "Hello, World!\n" }) := by
  rw [expressApp_pass (mkRateReq k t) [] rfl (fun hx => nomatch hx)]
  have hck : (mkRateReq k t).clientKey = k := rfl
  have htm : (mkRateReq k t).time = t := rfl
  rw [hck, htm]
  have hroute : routeDispatch (sanitizeBody (mkRateReq k t)) = helloResponse := rfl
  rw [hroute]
  have hng : ¬ ((1 : Nat) > maxRequests) := by decide
  simp [RLState.get, RLState.set, bumpWindow, hng, helloResponse]

/-- One request inside an active window bumps the counter and is either
served by the `/` route or cut off with the 429 body. -/
theorem expressApp_rate_step (k : String) (t c w0 : Nat) (ht : t < w0 + windowMs) :
    expressApp (mkRateReq k t) [(k, { count := c, windowStart := w0 })] =
      ([(k, { count := c + 1, windowStart := w0 })],
       if c + 1 ≤ maxRequests then
         { status := 200,
           headers := passHeaders (mkRateReq k t) { count := c + 1, windowStart := w0 },
           body := Body.text "Hello, World!\n" }
       else
         { status := 429,
           headers := passHeaders (mkRateReq k t) { count := c + 1, windowStart := w0 },
           body := Body.json rateLimitMessage }) := by
  rw [expressApp_pass (mkRateReq k t) [(k, { count := c, windowStart := w0 })] rfl
    (fun hx => nomatch hx)]
  have hck : (mkRateReq k t).clientKey = k := rfl
  have htm : (mkRateReq k t).time = t := rfl
  rw [hck, htm]
  have hroute : routeDispatch (sanitizeBody (mkRateReq k t)) = helloResponse := rfl
  have hget : RLState.get [(k, { count := c, windowStart := w0 })] k
      = some { count := c, windowStart := w0 } := by
    simp [RLState.get]
  have hbump : bumpWindow (some { count := c, windowStart := w0 }) t
      = { count := c + 1, windowStart := w0 } := by
    simp [bumpWindow, Nat.not_le.mpr ht]
  rw [hget, hbump, hroute]
  by_cases hle : c + 1 ≤ maxRequests
  · rw [if_neg (by simpa using Nat.not_lt.mpr hle), if_pos hle]
    simp [RLState.set, helloResponse]
  · rw [if_pos (by simpa using Nat.not_le.mp hle), if_neg hle]
    simp [RLState.set]

/-- Along a same-window sequence from one client, the store counts every
request, the statuses follow `rlStatuses`, and every 429 response carries
the configured `{error, retryAfter}` body. -/
theorem runSeq_rl (k : String) (ts : List Nat) : ∀ c w0 : Nat,
    (∀ t ∈ ts, t < w0 + windowMs) →
    (runSeq (ts.map (mkRateReq k)) [(k, { count := c, windowStart := w0 })]).1
        = [(k, { count := c + ts.length, windowStart := w0 })] ∧
    ((runSeq (ts.map (mkRateReq k)) [(k, { count := c, windowStart := w0 })]).2.map Response.status
        = rlStatuses c ts) ∧
    (∀ r ∈ (runSeq (ts.map (mkRateReq k)) [(k, { count := c, windowStart := w0 })]).2,
      r.status = 429 → r.body = Body.json rateLimitMessage) := by
  induction ts with
  | nil =>
      intro c w0 _
      simp [runSeq, rlStatuses]
  | cons t ts ih =>
      intro c w0 h
      have ht : t < w0 + windowMs := h t (List.mem_cons_self t ts)
      have ih2 := ih (c + 1) w0 (fun u hu => h u (List.mem_cons_of_mem t hu))
      simp only [List.map_cons, runSeq, expressApp_rate_step k t c w0 ht]
      have harith : c + 1 + ts.length = c + (ts.length + 1) := by omega
      by_cases hle : c + 1 ≤ maxRequests
      · simp only [if_pos hle]
        refine ⟨?_, ?_, ?_⟩
        · rw [ih2.1, List.length_cons, harith]
        · rw [ih2.2.1]
          simp [rlStatuses, hle]
        · intro r hr
          rcases List.mem_cons.mp hr with hr | hr
          · intro h429
            rw [hr] at h429
            simp at h429
          · exact ih2.2.2 r hr
      · simp only [if_neg hle]
        refine ⟨?_, ?_, ?_⟩
        · rw [ih2.1, List.length_cons, harith]
        · rw [ih2.2.1]
          simp [rlStatuses, hle]
        · intro r hr
          rcases List.mem_cons.mp hr with hr | hr
          · intro _
            rw [hr]
          · exact ih2.2.2 r hr

/-- C2: for any 101 requests from one client key all arriving inside the
first request's window, the statuses are exactly one hundred 200s
followed by a 429, and every response past the hundredth carries a
structured body with `error` and `retryAfter` fields. -/
theorem rate_limit_101 (k : String) (ts : List Nat)
    (hlen : ts.length = 101)
    (hwin : ∀ t ∈ ts, t < ts.headD 0 + windowMs) :
    ((runSeq (ts.map (mkRateReq k)) []).2.map Response.status
        = List.replicate 100 200 ++ [429]) ∧
    (∀ r ∈ ((runSeq (ts.map (mkRateReq k)) []).2.drop 100),
      r.status = 429 ∧
      (bodyField r.body "error").isSome = true ∧
      (bodyField r.body "retryAfter").isSome = true) := by
  cases ts with
  | nil => simp at hlen
  | cons t0 rest =>
      have hrestlen : rest.length = 100 := by
        simpa using hlen
      have hwin2 : ∀ t ∈ rest, t < t0 + windowMs := by
        intro t htm
        have := hwin t (List.mem_cons_of_mem t0 htm)
        simpa using this
      have hseq := runSeq_rl k rest 1 t0 hwin2
      have hfirst := expressApp_rate_first k t0
      have hstat :
          (runSeq ((t0 :: rest).map (mkRateReq k)) []).2.map Response.status
            = 200 :: rlStatuses 1 rest := by
        simp only [List.map_cons, runSeq, hfirst]
        simp [hseq.2.1]
      have hstatN : (200 : Nat) :: rlStatuses 1 rest = List.replicate 100 200 ++ [429] := by
        rw [rlStatuses_eq_len rest 1, hrestlen]
        decide
      constructor
      · rw [hstat, hstatN]
      · intro r hr
        have hmem : r ∈ (runSeq ((t0 :: rest).map (mkRateReq k)) []).2 :=
          List.mem_of_mem_drop hr
        have h429 : r.status = 429 := by
          have hsmem : r.status ∈
              ((runSeq ((t0 :: rest).map (mkRateReq k)) []).2.drop 100).map Response.status :=
            List.mem_map_of_mem Response.status hr
          rw [List.map_drop, hstat, hstatN] at hsmem
          simpa using hsmem
        have hbody : r.body = Body.json rateLimitMessage := by
          have : r ∈ ((expressApp (mkRateReq k t0) []).2
              :: (runSeq (rest.map (mkRateReq k)) [(k, { count := 1, windowStart := t0 })]).2) := by
            simpa [runSeq, List.map_cons] using hmem
          rcases List.mem_cons.mp this with hr0 | hrq
          · rw [hfirst] at hr0
            rw [hr0] at h429
            simp at h429
          · exact hseq.2.2 r hrq h429
        refine ⟨h429, ?_, ?_⟩
        · rw [hbody]; rfl
        · rw [hbody]; rfl

/-- C2 witness: 101 simultaneous requests from one client. -/
theorem rate_limit_101_w :
    (runSeq ((List.replicate 101 0).map (mkRateReq "client")) []).2.map Response.status
      = List.replicate 100 200 ++ [429] :=
  (rate_limit_101 "client" (List.replicate 101 0) (by simp) (by decide)).1

/-! ## Claim C8 -/

/-- Run a prefix of stages that all pass the request on; `none` when one
of them halts instead. -/
def runContinues : List Stage → Request → RLState → List (String × String) →
    Option (Request × RLState × List (String × String))
  | [], req, st, acc => some (req, st, acc)
  | s :: rest, req, st, acc =>
      match s req st with
      | (st', StageResult.next req' hs) => runContinues rest req' st' (acc ++ hs)
      | (_, StageResult.halt _) => none

/-- A pipeline run factors through any all-passing prefix. -/
theorem runContinues_append (pre : List Stage) : ∀ (rest : List Stage) (req : Request)
    (st : RLState) (acc : List (String × String))
    (out : Request × RLState × List (String × String)),
    runContinues pre req st acc = some out →
    runPipeline (pre ++ rest) req st acc = runPipeline rest out.1 out.2.1 out.2.2 := by
  induction pre with
  | nil =>
      intro rest req st acc out h
      simp only [runContinues, Option.some.injEq] at h
      rw [← h]
      rfl
  | cons s pre ih =>
      intro rest req st acc out h
      cases hs : s req st with
      | mk st2 res =>
          cases res with
          | next req2 hs2 =>
              have h2 : runContinues pre req2 st2 (acc ++ hs2) = some out := by
                simpa [runContinues, hs] using h
              have h3 := ih rest req2 st2 (acc ++ hs2) out h2
              simpa [List.cons_append, runPipeline, hs] using h3
          | halt r =>
              exfalso
              simp [runContinues, hs] at h

/-- After an all-passing prefix, a halting stage fixes the whole
pipeline's outcome, whatever stages follow. -/
theorem runPipeline_halt (pre : List Stage) (s : Stage) (suf : List Stage)
    (req : Request) (st : RLState) (acc : List (String × String))
    (out : Request × RLState × List (String × String)) (st2 : RLState) (r : Response)
    (hpre : runContinues pre req st acc = some out)
    (hs : s out.1 out.2.1 = (st2, StageResult.halt r)) :
    runPipeline (pre ++ s :: suf) req st acc
      = (st2, some { r with headers := out.2.2 ++ r.headers }) := by
  rw [runContinues_append pre (s :: suf) req st acc out hpre]
  simp [runPipeline, hs]

/-- C8: the Express pipeline is exactly the ordered stage list
helmet, CORS, rate limit, validation, route dispatch; and whenever a
stage terminates the chain after an all-passing prefix, the run's result
is fixed there — identical for any choice of later stages, which
therefore never execute. -/
theorem middleware_order_early_halt :
    expressStages = [helmetStage, corsStage, rateLimitStage, validationStage, routeStage] ∧
    ∀ (pre : List Stage) (s : Stage) (suf suf' : List Stage) (req : Request) (st : RLState)
      (acc : List (String × String)) (out : Request × RLState × List (String × String))
      (st2 : RLState) (r : Response),
      runContinues pre req st acc = some out →
      s out.1 out.2.1 = (st2, StageResult.halt r) →
      runPipeline (pre ++ s :: suf) req st acc
          = (st2, some { r with headers := out.2.2 ++ r.headers }) ∧
      runPipeline (pre ++ s :: suf) req st acc = runPipeline (pre ++ s :: suf') req st acc := by
  refine ⟨rfl, ?_⟩
  intro pre s suf suf' req st acc out st2 r hpre hs
  refine ⟨runPipeline_halt pre s suf req st acc out st2 r hpre hs, ?_⟩
  rw [runPipeline_halt pre s suf req st acc out st2 r hpre hs,
    runPipeline_halt pre s suf' req st acc out st2 r hpre hs]

/-- C8 witness: with a client already at the window capacity, the rate
limiter halts the chain, and dropping the validation and route stages
does not change the outcome — they never ran. -/
theorem middleware_order_early_halt_w :
    runPipeline ([helmetStage, corsStage] ++ rateLimitStage :: [validationStage, routeStage])
        (mkRateReq "client" 5) [("client", { count := 100, windowStart := 0 })] []
      = runPipeline ([helmetStage, corsStage] ++ rateLimitStage :: [])
        (mkRateReq "client" 5) [("client", { count := 100, windowStart := 0 })] [] :=
  (middleware_order_early_halt.2 [helmetStage, corsStage] rateLimitStage
    [validationStage, routeStage] []
    (mkRateReq "client" 5) [("client", { count := 100, windowStart := 0 })] []
    (mkRateReq "client" 5, [("client", { count := 100, windowStart := 0 })],
      securityHeaders Transport.plain)
    [("client", { count := 101, windowStart := 0 })]
    { status := 429,
      headers := rateLimitHeaders { count := 101, windowStart := 0 } 5,
      body := Body.json rateLimitMessage }
    rfl rfl).2

/-! ## Claims C4 and C6: process-level handlers -/

/-- The server objects shutdown code can call `close()` on: the listening
HTTP server, the listening HTTPS server, and the fresh HTTPS server
object the SIGTERM handler builds. -/
inductive ServerRef
  | httpServer | listeningHttpsServer | freshHttpsServer
  deriving DecidableEq, Repr

/-- An observable action of the process-level handlers. -/
inductive ProcAction
  | log (msg : String)
  | closeCall (s : ServerRef)
  | exitProc (code : Nat)
  deriving DecidableEq, Repr

/-- Whether an action is a process exit. -/
def ProcAction.isExit : ProcAction → Bool
  | ProcAction.exitProc _ => true
  | _ => false

/-- `httpServer.on('error', ...)` (`src/server.js` lines 206-211): log
the failure and, when the error code is `EADDRINUSE`, log a
port-in-use hint.  The handler performs no other action — in particular
it never calls `process.exit`. -/
def httpErrorHandler (code msg : String) : List ProcAction :=
  [ProcAction.log ("✗ HTTP Server error: " ++ msg)]
  ++ (if code = "EADDRINUSE" then
        [ProcAction.log ("  Port " ++ toString HTTP_PORT ++ " is already in use")]
      else [])

/-- `process.on('SIGINT', ...)` (lines 230-236): close the HTTP server,
log, exit with code 0.  The HTTPS listener is not touched. -/
def sigintTrace : List ProcAction :=
  [ProcAction.log "Received SIGINT, shutting down gracefully",
   ProcAction.closeCall ServerRef.httpServer,
   ProcAction.log "HTTP server closed",
   ProcAction.exitProc 0]

/-- `process.on('SIGTERM', ...)` (lines 213-228), flattened into the
completion order of its nested close callbacks: close the HTTP server;
after it closed, when certificates were loaded, build a **new**
`https.createServer(...)` object, call `close()` on that fresh object
(line 219-220 — the listening HTTPS server is never referenced), then
exit 0. -/
def sigtermTrace (certsLoaded : Bool) : List ProcAction :=
  [ProcAction.log "Received SIGTERM, shutting down gracefully",
   ProcAction.closeCall ServerRef.httpServer,
   ProcAction.log "HTTP server closed"]
  ++ (if certsLoaded then
        [ProcAction.closeCall ServerRef.freshHttpsServer,
         ProcAction.log "HTTPS server closed",
         ProcAction.exitProc 0]
      else [ProcAction.exitProc 0])

/-- C4 counterexample: on the concrete bind failure (`EADDRINUSE` on the
plain listener), the registered error handler emits no exit action at
all — the process is not terminated with a non-zero exit code. -/
theorem bind_failure_exit_cex :
    (httpErrorHandler "EADDRINUSE"
        "listen EADDRINUSE: address already in use 127.0.0.1:3000").all
      (fun a => !(a.isExit)) = true := by
  decide

/-- C4 (amended): on any plain-listener error the handler logs (its trace
is non-empty) and performs no process exit of any code; a graceful
shutdown (SIGINT) ends with exit code 0. -/
theorem bind_failure_logs_no_exit (code msg : String) :
    ((httpErrorHandler code msg).all (fun a => !(a.isExit)) = true) ∧
    httpErrorHandler code msg ≠ [] ∧
    sigintTrace.getLast? = some (ProcAction.exitProc 0) := by
  refine ⟨?_, ?_, rfl⟩
  · unfold httpErrorHandler
    by_cases hc : code = "EADDRINUSE" <;> simp [hc, ProcAction.isExit]
  · unfold httpErrorHandler
    by_cases hc : code = "EADDRINUSE" <;> simp [hc]

/-- C6: on SIGTERM with certificates loaded, the trace closes the HTTP
server and then a freshly created HTTPS server object — the listening
HTTPS server is never closed, the HTTPS close is sequenced strictly
after the HTTP close instead of independently, and SIGINT never touches
the HTTPS listener at all. -/
theorem sigterm_misses_https_listener :
    sigtermTrace true =
      [ProcAction.log "Received SIGTERM, shutting down gracefully",
       ProcAction.closeCall ServerRef.httpServer,
       ProcAction.log "HTTP server closed",
       ProcAction.closeCall ServerRef.freshHttpsServer,
       ProcAction.log "HTTPS server closed",
       ProcAction.exitProc 0] ∧
    ProcAction.closeCall ServerRef.listeningHttpsServer ∉ sigtermTrace true ∧
    ProcAction.closeCall ServerRef.listeningHttpsServer ∉ sigintTrace := by
  decide

/-! ## Claim C9 -/

/-- The filesystem as the certificate loader sees it: each path either
holds readable text or fails with an error (the exception
`fs.readFileSync` would throw). -/
structure FileSystem where
  read : String → Except String String

/-- `CERT_PATH` (line 18), relative to the source directory. -/
def CERT_PATH : String := "certificates/cert.pem"

/-- `KEY_PATH` (line 19), relative to the source directory. -/
def KEY_PATH : String := "certificates/key.pem"

/-- The loaded key/certificate pair. -/
structure TLSMaterial where
  cert : String
  key : String

/-- `loadTLSCertificates` (lines 141-157): read both files inside a
try/catch; any failure is caught and becomes the explicit absence value
`none` (the source returns `null`).  The function is total: no
exception escapes its boundary. -/
def loadTLSCertificates (fs : FileSystem) : Option TLSMaterial :=
  match fs.read CERT_PATH with
  | Except.error _ => none
  | Except.ok cert =>
      match fs.read KEY_PATH with
      | Except.error _ => none
      | Except.ok key => some { cert := cert, key := key }

/-- What a completed startup produces (lines 160-203): which listeners
started, and the shared request handler they dispatch into. -/
structure StartupResult where
  httpStarted : Bool
  httpsStarted : Bool
  handler : Request → RLState → RLState × Response

/-- How the startup sequence ends: running (with its listeners), or
crashed on an uncaught exception. -/
inductive StartupOutcome
  | running (res : StartupResult)
  | crashed (err : String)

/-- Whether one character list is a prefix of another. -/
def charPrefixOf : List Char → List Char → Bool
  | [], _ => true
  | _ :: _, [] => false
  | c :: cs, d :: ds => c == d && charPrefixOf cs ds

/-- PEM well-formedness as Node's TLS stack checks it when
`https.createServer` parses the supplied key/certificate.  That parser
is not in `src/`; only its framing check is modelled — text that does
not begin with a PEM `-----BEGIN` armour line is rejected (thrown on),
the grammar beyond the framing is abstracted away. -/
def pemWellFormed (s : String) : Bool :=
  charPrefixOf "-----BEGIN".data s.data

/-- Startup (lines 160-203): `httpServer.listen(...)` runs
unconditionally; under `if (certificates)` the source calls
`https.createServer(httpsOptions, app)` (line 183), which parses the
loaded material at once — the `try` of `loadTLSCertificates` covers
only the file reads, so on malformed PEM this throw is uncaught and
startup crashes; on well-formed material the encrypted listener starts
with the same Express handler.  (A later asynchronous `listen` error on
the HTTPS port is logged non-fatally by the handler at lines 194-199,
like the plain listener's in claim C4, and is outside this
definition.) -/
def startup (fs : FileSystem) : StartupOutcome :=
  match loadTLSCertificates fs with
  | none =>
      StartupOutcome.running
        { httpStarted := true, httpsStarted := false, handler := expressApp }
  | some m =>
      if pemWellFormed m.cert && pemWellFormed m.key then
        StartupOutcome.running
          { httpStarted := true, httpsStarted := true, handler := expressApp }
      else
        StartupOutcome.crashed "uncaught exception in https.createServer: invalid PEM material"

/-- A filesystem where both certificate paths are readable but hold text
that is not PEM material. -/
def malformedFS : FileSystem :=
  { read := fun _ => Except.ok "this is not a certificate" }

/-- C9 counterexample: on a readable-but-malformed key/certificate pair —
a parse failure, which the claim covers — the loader does **not** return
the absence value (it never parses; the `try` covers only the reads),
and startup does **not** succeed: `https.createServer` throws uncaught
and the process crashes. -/
theorem cert_parse_failure_crashes :
    loadTLSCertificates malformedFS =
      some { cert := "this is not a certificate", key := "this is not a certificate" } ∧
    loadTLSCertificates malformedFS ≠ none ∧
    startup malformedFS =
      StartupOutcome.crashed
        "uncaught exception in https.createServer: invalid PEM material" := by
  refine ⟨rfl, ?_, rfl⟩
  intro h
  nomatch h

/-- C9 (amended): when either certificate file fails to **read**, the
loader returns the explicit absence value (its try/catch lets no
exception escape), startup still succeeds with the plain listener
serving the ordinary Express application, and the encrypted listener is
simply not started. -/
theorem cert_read_failure_nonfatal (fs : FileSystem)
    (h : (∃ e, fs.read CERT_PATH = Except.error e) ∨
         (∃ e, fs.read KEY_PATH = Except.error e)) :
    loadTLSCertificates fs = none ∧
    startup fs =
      StartupOutcome.running
        { httpStarted := true, httpsStarted := false, handler := expressApp } := by
  have hnone : loadTLSCertificates fs = none := by
    rcases h with ⟨e, he⟩ | ⟨e, he⟩
    · simp [loadTLSCertificates, he]
    · cases hc : fs.read CERT_PATH with
      | error e2 => simp [loadTLSCertificates, hc]
      | ok c => simp [loadTLSCertificates, hc, he]
  exact ⟨hnone, by simp [startup, hnone]⟩

/-- A filesystem with no readable files at all. -/
def brokenFS : FileSystem :=
  { read := fun _ => Except.error "ENOENT: no such file or directory" }

/-- C9 witness: the loader and startup on a filesystem where both
certificate files are absent. -/
theorem cert_read_failure_nonfatal_w :
    loadTLSCertificates brokenFS = none ∧
    startup brokenFS =
      StartupOutcome.running
        { httpStarted := true, httpsStarted := false, handler := expressApp } :=
  cert_read_failure_nonfatal brokenFS
    (Or.inl ⟨"ENOENT: no such file or directory", rfl⟩)
